import Mathlib

/-!
Verification of the CFHT instrument-signature-removal front end
(`python/lsst/obs/cfht/cfhtIsrTask.py`).

The embedding models the `CfhtIsrTask.run` method: the saturation
estimator (a 100-bin histogram peak over the range `[60000, max+1]`
when the image maximum exceeds 60000, the metadata `SATURATE` scalar
otherwise), the per-amplifier gain/read-noise repair loop over
amplifiers named "A" and "B", and the orchestration that rejects a
brighter-fatter kernel outright.  Pixel values and metadata scalars
are modelled as exact rationals; Python's `int()` truncation toward
zero is `pyInt`; raised exceptions are modelled with `Except`.
-/

namespace CfhtIsr

/-- Failure conditions raised by `CfhtIsrTask.run`: the brighter-fatter
rejection (`ValueError` at line 62), a missing metadata key
(`metadata.getScalar` on an absent key), and an amplifier name outside
{"A", "B"} (`ValueError` at line 111). -/
inductive IsrError where
  | unsupportedCorrection : IsrError
  | missingMetadata : String → IsrError
  | unexpectedAmplifier : String → IsrError
deriving DecidableEq

/-- A metadata record: a partial map from string keys to scalar values. -/
def Metadata : Type := String → Option ℚ

/-- Model of `metadata.getScalar(key)`: the stored scalar, or a
missing-metadata failure when the key is absent. -/
def getScalar (meta : Metadata) (key : String) : Except IsrError ℚ :=
  match meta key with
  | some v => Except.ok v
  | none => Except.error (IsrError.missingMetadata key)

/-- Model of `np.max(imageArray)` over the flattened pixel list
(0 for an empty image, which the estimator never meaningfully hits). -/
def maxPixel : List ℚ → ℚ
  | [] => 0
  | x :: xs => xs.foldl max x

/-- The bin of value `x` in a 100-bin histogram over `[a, b]`
(`np.histogram(..., bins=100, range=(a, b))`): bins are half-open
`[e_i, e_i+1)` except the last, which also contains `b`. -/
def binIndex (a b x : ℚ) : ℕ :=
  if x = b then 99 else (⌊100 * (x - a) / (b - a)⌋).toNat

/-- Whether value `x` is counted in bin `i` of the 100-bin histogram
over `[a, b]`; values outside the range are dropped, as `np.histogram`
does with an explicit `range`. -/
def inBin (a b : ℚ) (i : ℕ) (x : ℚ) : Bool :=
  decide (a ≤ x) && decide (x ≤ b) && (binIndex a b x == i)

/-- Count of bin `i` of the histogram `np.histogram(imageArray.ravel(),
bins=100, range=(60000.0, maxValue+1.0))` from line 78. -/
def binCount (pixels : List ℚ) (i : ℕ) : ℕ :=
  pixels.countP (inBin 60000 (maxPixel pixels + 1) i)

/-- The full 100-entry count list `hist` of line 78. -/
def histList (pixels : List ℚ) : List ℕ :=
  (List.range 100).map (binCount pixels)

/-- Maximum of a list of naturals (0 when empty). -/
def listMax (l : List ℕ) : ℕ := l.foldr max 0

/-- Model of `np.argmax`: the index of the first occurrence of the
maximum value. -/
def argmaxIdx (l : List ℕ) : ℕ := l.findIdx (fun x => x == listMax l)

/-- `bin_edges[i]` of the 100-bin histogram over `[a, b]`. -/
def binEdge (a b : ℚ) (i : ℕ) : ℚ := a + i * (b - a) / 100

/-- `bin_edges[np.argmax(hist)]` of line 79: the lower edge of the
first highest-count bin. -/
def peakBinLowerEdge (pixels : List ℚ) : ℚ :=
  binEdge 60000 (maxPixel pixels + 1) (argmaxIdx (histList pixels))

/-- Python's `int()` on a rational: truncation toward zero. -/
def pyInt (q : ℚ) : ℤ := if 0 ≤ q then ⌊q⌋ else ⌈q⌉

/-- The saturation detection of lines 76-81: when the image maximum
exceeds 60000.0, `int(self.config.safe * bin_edges[np.argmax(hist)])`;
otherwise the raw metadata scalar `SATURATE`. -/
def estimateSaturation (safe : ℚ) (pixels : List ℚ) (meta : Metadata) :
    Except IsrError ℚ :=
  if 60000 < maxPixel pixels then
    Except.ok ((pyInt (safe * peakBinLowerEdge pixels) : ℤ) : ℚ)
  else
    getScalar meta "SATURATE"

/-- One amplifier record: its name, the three calibration scalars the
repair loop overwrites, and `extra` standing for every other field of
the record, which `amp.rebuild()` copies verbatim. -/
structure Amp where
  name : String
  saturation : ℚ
  gain : ℚ
  readNoise : ℚ
  extra : ℤ
deriving DecidableEq

/-- The body of the repair loop (lines 87-112) for one amplifier:
rebuild the record, set the shared saturation, then dispatch on the
name: "A" uses `GAINA`/`RDNOISEA` with fallback to `RDNOISE` when the
read noise exceeds 60000.0, "B" symmetrically, and any other name
fails with the unexpected-amplifier error. -/
def repairAmp (meta : Metadata) (saturate : ℚ) (amp : Amp) :
    Except IsrError Amp :=
  if amp.name = "A" then
    match meta "GAINA" with
    | none => Except.error (IsrError.missingMetadata "GAINA")
    | some g =>
      match meta "RDNOISEA" with
      | none => Except.error (IsrError.missingMetadata "RDNOISEA")
      | some rdnA =>
        if 60000 < rdnA then
          match meta "RDNOISE" with
          | none => Except.error (IsrError.missingMetadata "RDNOISE")
          | some rdn =>
            Except.ok { amp with saturation := saturate, gain := g, readNoise := rdn }
        else
          Except.ok { amp with saturation := saturate, gain := g, readNoise := rdnA }
  else if amp.name = "B" then
    match meta "GAINB" with
    | none => Except.error (IsrError.missingMetadata "GAINB")
    | some g =>
      match meta "RDNOISEB" with
      | none => Except.error (IsrError.missingMetadata "RDNOISEB")
      | some rdnB =>
        if 60000 < rdnB then
          match meta "RDNOISE" with
          | none => Except.error (IsrError.missingMetadata "RDNOISE")
          | some rdn =>
            Except.ok { amp with saturation := saturate, gain := g, readNoise := rdn }
        else
          Except.ok { amp with saturation := saturate, gain := g, readNoise := rdnB }
  else
    Except.error (IsrError.unexpectedAmplifier amp.name)

/-- The repair loop over the detector's amplifiers in order, appending
each corrected record to the fresh working detector (`tempCcd`); a
raise inside the loop aborts the whole repair. -/
def repairAmps (meta : Metadata) (saturate : ℚ) :
    List Amp → Except IsrError (List Amp)
  | [] => Except.ok []
  | amp :: rest =>
    match repairAmp meta saturate amp with
    | Except.error e => Except.error e
    | Except.ok a =>
      match repairAmps meta saturate rest with
      | Except.error e => Except.error e
      | Except.ok as => Except.ok (a :: as)

/-- The core of `CfhtIsrTask.run`: reject a brighter-fatter kernel
first, otherwise estimate the saturation and rebuild the detector's
amplifier list; the result is the corrected detector attached to the
exposure by `ccdExposure.setDetector` (an error leaves the exposure's
original detector in place). -/
def run (safe : ℚ) (bfKernel : Option Unit) (pixels : List ℚ)
    (meta : Metadata) (ccd : List Amp) : Except IsrError (List Amp) :=
  match bfKernel with
  | some _ => Except.error IsrError.unsupportedCorrection
  | none =>
    match estimateSaturation safe pixels meta with
    | Except.error e => Except.error e
    | Except.ok saturate => repairAmps meta saturate ccd

/-- Following the spec's words (a second definition for the refinement
claim C1, not taken from the code): `e` is the lower edge of the
highest-count bin of the 100-bin histogram over `[60000, max+1]`,
ties resolved to the first maximal bin by ascending bin index. -/
def IsPeakEdge (pixels : List ℚ) (e : ℚ) : Prop :=
  ∃ i : Fin 100, e = binEdge 60000 (maxPixel pixels + 1) i ∧
    (∀ j : Fin 100, binCount pixels j ≤ binCount pixels i) ∧
    (∀ j : Fin 100, (j : ℕ) < (i : ℕ) → binCount pixels j < binCount pixels i)

/-- The fields of an amplifier record the repair loop never writes:
its name and the `extra` stand-in for everything else `rebuild` copies. -/
def calibKey (a : Amp) : String × ℤ := (a.name, a.extra)

/-- The name of the first amplifier in the detector whose name is
neither "A" nor "B", when there is one. -/
def firstNonAB (amps : List Amp) : Option String :=
  (amps.find? (fun a => !(a.name == "A" || a.name == "B"))).map Amp.name

/-- A rational that is a non-negative integer. -/
def isNonnegIntValue (q : ℚ) : Prop := ∃ n : ℕ, q = (n : ℚ)

/-- The maximum of a nonempty list of naturals is one of its elements. -/
theorem listMax_mem : ∀ {l : List ℕ}, l ≠ [] → listMax l ∈ l
  | [], h => absurd rfl h
  | a :: t, _ => by
    unfold listMax
    rw [List.foldr_cons]
    cases t with
    | nil => simp
    | cons b t' =>
      rcases max_choice a ((b :: t').foldr max 0) with h | h
      · rw [h]; exact List.mem_cons_self a _
      · rw [h]; exact List.mem_cons_of_mem a (listMax_mem (by simp))

/-- Every element of a list of naturals is at most its maximum. -/
theorem le_listMax : ∀ {l : List ℕ} {x : ℕ}, x ∈ l → x ≤ listMax l
  | a :: t, x, hx => by
    unfold listMax
    rw [List.foldr_cons]
    rcases List.mem_cons.mp hx with h | h
    · rw [h]; exact le_max_left _ _
    · exact le_trans (le_listMax h) (le_max_right _ _)

/-- The argmax index of a nonempty list is in range. -/
theorem argmaxIdx_lt_length {l : List ℕ} (h : l ≠ []) :
    argmaxIdx l < l.length :=
  List.findIdx_lt_length_of_exists ⟨listMax l, listMax_mem h, by simp⟩

/-- The argmax index points at the maximum value. -/
theorem argmaxIdx_getElem {l : List ℕ} (h : argmaxIdx l < l.length) :
    l[argmaxIdx l] = listMax l := by
  have h2 : l.findIdx (fun x => x == listMax l) < l.length := h
  have h3 := @List.findIdx_getElem ℕ (fun x => x == listMax l) l h2
  simpa [argmaxIdx] using h3

/-- Entries strictly before the argmax index are below the maximum. -/
theorem lt_of_lt_argmaxIdx {l : List ℕ} {j : ℕ} (hj : j < argmaxIdx l)
    (hjl : j < l.length) : l[j] < listMax l := by
  have hj2 : j < l.findIdx (fun x => x == listMax l) := hj
  have hne := List.not_of_lt_findIdx hj2
  have hmem : l[j] ∈ l := List.getElem_mem hjl
  have hle : l[j] ≤ listMax l := le_listMax hmem
  rcases lt_or_eq_of_le hle with h | h
  · exact h
  · exact absurd (by simpa using h) (by simpa using hne)

/-- The histogram list has one count per bin. -/
theorem histList_length (pixels : List ℚ) : (histList pixels).length = 100 := by
  simp [histList]

/-- The histogram list's entries are the bin counts. -/
theorem histList_getElem (pixels : List ℚ) {j : ℕ}
    (hj : j < (histList pixels).length) :
    (histList pixels)[j] = binCount pixels j := by
  simp [histList]

/-- A peak edge in the sense of the spec is exactly the lower edge the
code computes with `bin_edges[np.argmax(hist)]`: the first maximal bin
is unique, so the spec's description pins down `np.argmax`'s
first-occurrence convention. -/
theorem isPeakEdge_eq {pixels : List ℚ} {e : ℚ} (hp : IsPeakEdge pixels e) :
    e = peakBinLowerEdge pixels := by
  obtain ⟨i, he, hle, hfirst⟩ := hp
  have hne : histList pixels ≠ [] := by
    intro hcon
    have := histList_length pixels
    rw [hcon] at this
    simp at this
  have halt : argmaxIdx (histList pixels) < (histList pixels).length :=
    argmaxIdx_lt_length hne
  have halt100 : argmaxIdx (histList pixels) < 100 := by
    rw [← histList_length pixels]; exact halt
  have hamax : binCount pixels (argmaxIdx (histList pixels)) =
      listMax (histList pixels) := by
    rw [← histList_getElem pixels halt]
    exact argmaxIdx_getElem halt
  have hbound : ∀ j : ℕ, j < 100 →
      binCount pixels j ≤ listMax (histList pixels) := by
    intro j hj
    have hj' : j < (histList pixels).length := by
      rw [histList_length]; exact hj
    rw [← histList_getElem pixels hj']
    exact le_listMax (List.getElem_mem hj')
  have hia : (i : ℕ) = argmaxIdx (histList pixels) := by
    rcases lt_trichotomy (i : ℕ) (argmaxIdx (histList pixels)) with h | h | h
    · exfalso
      have h1 : binCount pixels i < listMax (histList pixels) := by
        have hi' : (i : ℕ) < (histList pixels).length := by
          rw [histList_length]; exact i.isLt
        have := lt_of_lt_argmaxIdx h hi'
        rwa [histList_getElem pixels hi'] at this
      have h2 : binCount pixels (⟨argmaxIdx (histList pixels), halt100⟩ : Fin 100) ≤
          binCount pixels i := hle ⟨argmaxIdx (histList pixels), halt100⟩
      rw [hamax] at h2
      exact absurd (lt_of_le_of_lt h2 h1) (lt_irrefl _)
    · exact h
    · exfalso
      have h1 : binCount pixels (⟨argmaxIdx (histList pixels), halt100⟩ : Fin 100) <
          binCount pixels i := hfirst ⟨argmaxIdx (histList pixels), halt100⟩ h
      rw [hamax] at h1
      exact absurd (lt_of_le_of_lt (hbound i i.isLt) h1) (lt_irrefl _)
  rw [he, peakBinLowerEdge, hia]

/-- Bin edges over a range starting at 60000 are non-negative. -/
theorem binEdge_nonneg {b : ℚ} (i : ℕ) (hb : 60000 ≤ b) :
    0 ≤ binEdge 60000 b i := by
  unfold binEdge
  have h1 : (0 : ℚ) ≤ (i : ℚ) * (b - 60000) / 100 := by
    apply div_nonneg
    · exact mul_nonneg (by positivity) (by linarith)
    · norm_num
  linarith

/-- Python's `int()` agrees with the floor on non-negative arguments. -/
theorem pyInt_eq_floor {q : ℚ} (h : 0 ≤ q) : pyInt q = ⌊q⌋ := if_pos h

/-- C5: supplying a non-null brighter-fatter kernel fails with the
unsupported-correction condition for every combination of the other
inputs, before any metadata is read or any histogram is computed. -/
theorem C5_bfkernel_always_rejected (safe : ℚ) (k : Unit) (pixels : List ℚ)
    (meta : Metadata) (ccd : List Amp) :
    run safe (some k) pixels meta ccd =
      Except.error IsrError.unsupportedCorrection := rfl

/-- C1: for an exposure whose maximum pixel value exceeds 60000.0, the
estimated saturation is `floor(safe * L)` where `L` is the lower edge
of the (first) highest-count bin of the 100-bin histogram over
`[60000, max+1]`; `int()` truncation agrees with the floor here
because the safety fraction is non-negative. -/
theorem C1_histogram_saturation (safe e : ℚ) (pixels : List ℚ)
    (meta : Metadata) (hsafe : 0 ≤ safe) (hmax : 60000 < maxPixel pixels)
    (hpeak : IsPeakEdge pixels e) :
    estimateSaturation safe pixels meta = Except.ok ((⌊safe * e⌋ : ℤ) : ℚ) := by
  have he := isPeakEdge_eq hpeak
  have h0 : 0 ≤ peakBinLowerEdge pixels :=
    binEdge_nonneg _ (by linarith : (60000 : ℚ) ≤ maxPixel pixels + 1)
  subst he
  unfold estimateSaturation
  rw [if_pos hmax, pyInt_eq_floor (mul_nonneg hsafe h0)]

/-- The single pixel 60001 lands in bin 50 of the histogram over
`[60000, 60002]`. -/
theorem binIndex_60001 : binIndex 60000 60002 60001 = 50 := by
  unfold binIndex
  rw [if_neg (by norm_num),
    show ⌊100 * ((60001 : ℚ) - 60000) / (60002 - 60000)⌋ = 50 by norm_num]
  rfl

/-- Bin counts for the one-pixel image `[60001]`. -/
theorem binCount_im60001 (j : ℕ) :
    binCount [60001] j = if 50 = j then 1 else 0 := by
  have hm : maxPixel [60001] = 60001 := rfl
  unfold binCount
  rw [hm, show (60001 : ℚ) + 1 = 60002 by norm_num]
  rw [List.countP_cons, List.countP_nil]
  unfold inBin
  rw [binIndex_60001,
    decide_eq_true (show (60000 : ℚ) ≤ 60001 by norm_num),
    decide_eq_true (show (60001 : ℚ) ≤ 60002 by norm_num)]
  by_cases h : 50 = j
  · subst h; simp
  · simp [h, Ne.symm h]

/-- The lower edge 60001 is the peak edge of the one-pixel image
`[60001]`. -/
theorem isPeakEdge_im60001 : IsPeakEdge [60001] 60001 := by
  refine ⟨⟨50, by norm_num⟩, ?_, ?_, ?_⟩
  · rw [show maxPixel [60001] = 60001 from rfl]
    unfold binEdge
    norm_num
  · intro j
    rw [binCount_im60001, binCount_im60001]
    by_cases h : 50 = (j : ℕ)
    · simp [h]
    · simp [h]
  · intro j hj
    rw [binCount_im60001, binCount_im60001]
    have h1 : ¬(50 = (j : ℕ)) := by
      simp only [Fin.val_mk] at hj
      omega
    simp [h1]

/-- Witness for C1 at the one-pixel image `[60001]` with the default
safety fraction 0.95. -/
theorem C1_histogram_saturation_witness :
    estimateSaturation (19/20) [60001] (fun _ => none) =
      Except.ok ((⌊(19/20 : ℚ) * 60001⌋ : ℤ) : ℚ) :=
  C1_histogram_saturation (19/20) 60001 [60001] (fun _ => none)
    (by norm_num)
    (by rw [show maxPixel [60001] = 60001 from rfl]; norm_num)
    isPeakEdge_im60001

/-- C7 fails on the metadata branch: with maximum pixel value at most
60000 the estimator returns the raw `SATURATE` scalar, which need not
be a non-negative integer (here 5/2). -/
theorem C7_counterexample :
    estimateSaturation (19/20) [100]
        (fun k => if k = "SATURATE" then some (5/2) else none) =
      Except.ok (5/2) ∧
    ¬ isNonnegIntValue (5/2) := by
  constructor
  · rfl
  · rintro ⟨n, hn⟩
    have h2 : (5 : ℚ) = 2 * (n : ℚ) := by
      have := hn
      field_simp at this
      linarith
    have h3 : (5 : ℚ) = ((2 * n : ℕ) : ℚ) := by push_cast; exact h2
    have h4 : 5 = 2 * n := Nat.cast_injective h3
    omega

/-- C7 amended: in the histogram branch and with a non-negative safety
fraction, the estimated saturation is a non-negative integer; the
metadata branch returns the `SATURATE` scalar as-is. -/
theorem C7_amended_histogram_nonneg_integer (safe : ℚ) (pixels : List ℚ)
    (meta : Metadata) (hsafe : 0 ≤ safe) (hmax : 60000 < maxPixel pixels) :
    estimateSaturation safe pixels meta =
      Except.ok ((pyInt (safe * peakBinLowerEdge pixels) : ℤ) : ℚ) ∧
    isNonnegIntValue ((pyInt (safe * peakBinLowerEdge pixels) : ℤ) : ℚ) := by
  have h0 : 0 ≤ peakBinLowerEdge pixels :=
    binEdge_nonneg _ (by linarith : (60000 : ℚ) ≤ maxPixel pixels + 1)
  have hq : 0 ≤ safe * peakBinLowerEdge pixels := mul_nonneg hsafe h0
  have hfl : 0 ≤ pyInt (safe * peakBinLowerEdge pixels) := by
    rw [pyInt_eq_floor hq]
    exact Int.floor_nonneg.mpr hq
  constructor
  · unfold estimateSaturation
    rw [if_pos hmax]
  · refine ⟨(pyInt (safe * peakBinLowerEdge pixels)).toNat, ?_⟩
    exact_mod_cast congrArg (fun z : ℤ => (z : ℚ)) (Int.toNat_of_nonneg hfl).symm

/-- Witness for the amended C7 at the one-pixel image `[60001]`. -/
theorem C7_amended_witness :
    estimateSaturation (19/20) [60001] (fun _ => none) =
      Except.ok ((pyInt ((19/20) * peakBinLowerEdge [60001]) : ℤ) : ℚ) ∧
    isNonnegIntValue ((pyInt ((19/20) * peakBinLowerEdge [60001]) : ℤ) : ℚ) :=
  C7_amended_histogram_nonneg_integer (19/20) [60001] (fun _ => none)
    (by norm_num)
    (by rw [show maxPixel [60001] = 60001 from rfl]; norm_num)

/-- C2: for an exposure whose maximum pixel value is at most 60000.0,
the estimated saturation is the metadata scalar `SATURATE` exactly
(no scaling by the safety fraction, for every value of `safe`), and
the run fails with the missing-metadata condition when `SATURATE` is
absent. -/
theorem C2_metadata_saturation (safe : ℚ) (pixels : List ℚ)
    (meta : Metadata) (ccd : List Amp) (hmax : maxPixel pixels ≤ 60000) :
    estimateSaturation safe pixels meta =
      (match meta "SATURATE" with
       | some v => Except.ok v
       | none => Except.error (IsrError.missingMetadata "SATURATE")) ∧
    run safe none pixels meta ccd =
      (match meta "SATURATE" with
       | some v => repairAmps meta v ccd
       | none => Except.error (IsrError.missingMetadata "SATURATE")) := by
  have hs : estimateSaturation safe pixels meta = getScalar meta "SATURATE" := by
    unfold estimateSaturation
    rw [if_neg (not_lt.mpr hmax)]
  constructor
  · rw [hs]; unfold getScalar; rfl
  · show (match estimateSaturation safe pixels meta with
      | Except.error e => Except.error e
      | Except.ok saturate => repairAmps meta saturate ccd) = _
    rw [hs]
    unfold getScalar
    cases meta "SATURATE" <;> rfl

/-- Witness for C2: `SATURATE` absent and a maximum pixel value of 100
make both the estimator and the whole run fail with the
missing-metadata condition. -/
theorem C2_metadata_saturation_witness :
    estimateSaturation (19/20) [100] (fun _ => none) =
      Except.error (IsrError.missingMetadata "SATURATE") ∧
    run (19/20) none [100] (fun _ => none) [] =
      Except.error (IsrError.missingMetadata "SATURATE") :=
  C2_metadata_saturation (19/20) [100] (fun _ => none) []
    (by rw [show maxPixel [100] = 100 from rfl]; norm_num)

/-- C3: an amplifier named "A" gets gain `GAINA` and read noise
`RDNOISEA`, falling back to `RDNOISE` exactly when `RDNOISEA` exceeds
60000.0; symmetrically for "B" with `GAINB`/`RDNOISEB`. -/
theorem C3_gain_readnoise_repair (meta : Metadata) (sat g rn r : ℚ)
    (amp : Amp) (gk rk : String)
    (hrole : (amp.name = "A" ∧ gk = "GAINA" ∧ rk = "RDNOISEA") ∨
             (amp.name = "B" ∧ gk = "GAINB" ∧ rk = "RDNOISEB"))
    (hg : meta gk = some g) (hrn : meta rk = some rn)
    (hr : meta "RDNOISE" = some r) :
    repairAmp meta sat amp =
      Except.ok { amp with saturation := sat, gain := g,
                           readNoise := if 60000 < rn then r else rn } := by
  rcases hrole with ⟨hname, hgk, hrk⟩ | ⟨hname, hgk, hrk⟩ <;>
    subst hgk <;> subst hrk <;>
    unfold repairAmp <;>
    simp only [hname, String.reduceEq, reduceIte, hg, hrn, hr] <;>
    split <;> rfl

/-- Witness for C3: amplifier "A" with corrupted `RDNOISEA` = 65535
falls back to `RDNOISE` = 26/5 (the spec's 5.2). -/
theorem C3_gain_readnoise_repair_witness :
    repairAmp
        (fun k => if k = "GAINA" then some 3
          else if k = "RDNOISEA" then some 65535
          else if k = "RDNOISE" then some (26/5) else none)
        7 { name := "A", saturation := 0, gain := 0, readNoise := 0, extra := 0 } =
      Except.ok { name := "A", saturation := 7, gain := 3,
                  readNoise := if (60000 : ℚ) < 65535 then 26/5 else 65535,
                  extra := 0 } :=
  C3_gain_readnoise_repair
    (fun k => if k = "GAINA" then some 3
      else if k = "RDNOISEA" then some 65535
      else if k = "RDNOISE" then some (26/5) else none)
    7 3 65535 (26/5)
    { name := "A", saturation := 0, gain := 0, readNoise := 0, extra := 0 }
    "GAINA" "RDNOISEA" (Or.inl ⟨rfl, rfl, rfl⟩) rfl rfl rfl

/-- C9: the per-amplifier read-noise key is read unconditionally
before the corrupted-value check, so its absence fails the run with a
missing-metadata condition for that key even when the fallback
`RDNOISE` is present. -/
theorem C9_rdnoise_key_read_unconditionally (meta : Metadata) (sat g r : ℚ)
    (amp : Amp) (gk rk : String)
    (hrole : (amp.name = "A" ∧ gk = "GAINA" ∧ rk = "RDNOISEA") ∨
             (amp.name = "B" ∧ gk = "GAINB" ∧ rk = "RDNOISEB"))
    (hg : meta gk = some g) (hrn : meta rk = none)
    (hr : meta "RDNOISE" = some r) :
    repairAmp meta sat amp = Except.error (IsrError.missingMetadata rk) := by
  rcases hrole with ⟨hname, hgk, hrk⟩ | ⟨hname, hgk, hrk⟩ <;>
    subst hgk <;> subst hrk <;>
    unfold repairAmp <;>
    simp only [hname, String.reduceEq, reduceIte, hg, hrn, hr]

/-- Witness for C9: `RDNOISEA` absent while `RDNOISE` is present still
fails with the missing-metadata condition for `RDNOISEA`. -/
theorem C9_rdnoise_key_read_unconditionally_witness :
    repairAmp
        (fun k => if k = "GAINA" then some 3
          else if k = "RDNOISE" then some 5 else none)
        7 { name := "A", saturation := 0, gain := 0, readNoise := 0, extra := 0 } =
      Except.error (IsrError.missingMetadata "RDNOISEA") :=
  C9_rdnoise_key_read_unconditionally
    (fun k => if k = "GAINA" then some 3
      else if k = "RDNOISE" then some 5 else none)
    7 3 5
    { name := "A", saturation := 0, gain := 0, readNoise := 0, extra := 0 }
    "GAINA" "RDNOISEA" (Or.inl ⟨rfl, rfl, rfl⟩) rfl rfl rfl

/-- A successful single-amplifier repair never changes the name or the
untouched fields: only saturation, gain and read noise are written. -/
theorem repairAmp_ok_calibKey {meta : Metadata} {sat : ℚ} {amp b : Amp}
    (h : repairAmp meta sat amp = Except.ok b) :
    b.name = amp.name ∧ b.extra = amp.extra := by
  unfold repairAmp at h
  repeat' split at h
  all_goals cases h
  all_goals exact ⟨rfl, rfl⟩

/-- The single-amplifier repair depends only on the amplifier's name
and untouched fields, not on its previous calibration scalars. -/
theorem repairAmp_congr (meta : Metadata) (sat : ℚ) (a₁ a₂ : Amp)
    (hn : a₁.name = a₂.name) (he : a₁.extra = a₂.extra) :
    repairAmp meta sat a₁ = repairAmp meta sat a₂ := by
  obtain ⟨n₁, s₁, g₁, r₁, e₁⟩ := a₁
  obtain ⟨n₂, s₂, g₂, r₂, e₂⟩ := a₂
  have hn2 : n₁ = n₂ := hn
  have he2 : e₁ = e₂ := he
  subst hn2
  subst he2
  rfl

/-- The whole repair loop depends only on names and untouched fields. -/
theorem repairAmps_congr (meta : Metadata) (sat : ℚ) :
    ∀ (l₁ l₂ : List Amp), l₁.map calibKey = l₂.map calibKey →
      repairAmps meta sat l₁ = repairAmps meta sat l₂
  | [], [], _ => rfl
  | [], _ :: _, h => by simp at h
  | _ :: _, [], h => by simp at h
  | a :: t₁, b :: t₂, h => by
    simp only [List.map_cons, List.cons.injEq] at h
    obtain ⟨hab, ht⟩ := h
    have h1 : a.name = b.name := congrArg Prod.fst hab
    have h2 : a.extra = b.extra := congrArg Prod.snd hab
    unfold repairAmps
    rw [repairAmp_congr meta sat a b h1 h2,
      repairAmps_congr meta sat t₁ t₂ ht]

/-- A successful repair loop preserves the list of names and untouched
fields. -/
theorem repairAmps_ok_calibKey {meta : Metadata} {sat : ℚ} :
    ∀ (l out : List Amp), repairAmps meta sat l = Except.ok out →
      out.map calibKey = l.map calibKey
  | [], out, h => by
    unfold repairAmps at h
    injection h with h2
    subst h2
    rfl
  | a :: t, out, h => by
    unfold repairAmps at h
    cases hb : repairAmp meta sat a with
    | error e => rw [hb] at h; cases h
    | ok b =>
      rw [hb] at h
      cases ht : repairAmps meta sat t with
      | error e => rw [ht] at h; cases h
      | ok bs =>
        rw [ht] at h
        injection h with h2
        subst h2
        have hk := repairAmp_ok_calibKey hb
        simp only [List.map_cons]
        rw [repairAmps_ok_calibKey t bs ht]
        unfold calibKey
        rw [hk.1, hk.2]

/-- A successful repair loop pairs input and output amplifiers in
order, preserving name and untouched fields. -/
theorem repairAmps_forall₂ {meta : Metadata} {sat : ℚ} :
    ∀ (l out : List Amp), repairAmps meta sat l = Except.ok out →
      List.Forall₂ (fun a b => a.name = b.name ∧ a.extra = b.extra) l out
  | [], out, h => by
    unfold repairAmps at h
    injection h with h2
    subst h2
    exact List.Forall₂.nil
  | a :: t, out, h => by
    unfold repairAmps at h
    cases hb : repairAmp meta sat a with
    | error e => rw [hb] at h; cases h
    | ok b =>
      rw [hb] at h
      cases ht : repairAmps meta sat t with
      | error e => rw [ht] at h; cases h
      | ok bs =>
        rw [ht] at h
        injection h with h2
        subst h2
        have hk := repairAmp_ok_calibKey hb
        exact List.Forall₂.cons ⟨hk.1.symm, hk.2.symm⟩
          (repairAmps_forall₂ t bs ht)

/-- With the per-amplifier metadata keys present, a repair of an
amplifier named "A" or "B" succeeds. -/
theorem repairAmp_ok_exists {meta : Metadata} {sat : ℚ} {amp : Amp}
    (hab : amp.name = "A" ∨ amp.name = "B")
    (hga : (meta "GAINA").isSome = true)
    (hrna : (meta "RDNOISEA").isSome = true)
    (hgb : (meta "GAINB").isSome = true)
    (hrnb : (meta "RDNOISEB").isSome = true)
    (hrd : (meta "RDNOISE").isSome = true) :
    ∃ b, repairAmp meta sat amp = Except.ok b := by
  obtain ⟨gA, hgA⟩ := Option.isSome_iff_exists.mp hga
  obtain ⟨rA, hrA⟩ := Option.isSome_iff_exists.mp hrna
  obtain ⟨gB, hgB⟩ := Option.isSome_iff_exists.mp hgb
  obtain ⟨rB, hrB⟩ := Option.isSome_iff_exists.mp hrnb
  obtain ⟨r, hr⟩ := Option.isSome_iff_exists.mp hrd
  rcases hab with hname | hname
  · unfold repairAmp
    simp only [hname, String.reduceEq, reduceIte, hgA, hrA, hr]
    split
    · exact ⟨_, rfl⟩
    · exact ⟨_, rfl⟩
  · unfold repairAmp
    simp only [hname, String.reduceEq, reduceIte, hgB, hrB, hr]
    split
    · exact ⟨_, rfl⟩
    · exact ⟨_, rfl⟩

/-- With the per-amplifier metadata keys present, the repair loop
fails with the unexpected-amplifier error naming the first amplifier
whose name is neither "A" nor "B". -/
theorem repairAmps_firstNonAB_error {meta : Metadata} {sat : ℚ}
    (hga : (meta "GAINA").isSome = true)
    (hrna : (meta "RDNOISEA").isSome = true)
    (hgb : (meta "GAINB").isSome = true)
    (hrnb : (meta "RDNOISEB").isSome = true)
    (hrd : (meta "RDNOISE").isSome = true) :
    ∀ (l : List Amp) (n : String), firstNonAB l = some n →
      repairAmps meta sat l = Except.error (IsrError.unexpectedAmplifier n)
  | [], n, h => by simp [firstNonAB] at h
  | a :: t, n, h => by
    by_cases hab : a.name = "A" ∨ a.name = "B"
    · have hpred : (!(a.name == "A" || a.name == "B")) = false := by
        rcases hab with h1 | h1 <;> simp [h1]
      have ht : firstNonAB t = some n := by
        unfold firstNonAB at h ⊢
        rwa [@List.find?_cons_of_neg Amp
          (fun x => !(x.name == "A" || x.name == "B")) a t
          (ne_true_of_eq_false hpred)] at h
      obtain ⟨b, hb⟩ := repairAmp_ok_exists hab hga hrna hgb hrnb hrd
      unfold repairAmps
      rw [hb, repairAmps_firstNonAB_error hga hrna hgb hrnb hrd t n ht]
    · push_neg at hab
      have hpred : (!(a.name == "A" || a.name == "B")) = true := by
        simp [hab.1, hab.2]
      have hn : n = a.name := by
        unfold firstNonAB at h
        rw [@List.find?_cons_of_pos Amp
          (fun x => !(x.name == "A" || x.name == "B")) a t hpred] at h
        rw [show Option.map Amp.name (some a) = some a.name from rfl] at h
        injection h with h2
        exact h2.symm
      subst hn
      unfold repairAmps
      rw [show repairAmp meta sat a =
          Except.error (IsrError.unexpectedAmplifier a.name) from by
        unfold repairAmp
        rw [if_neg hab.1, if_neg hab.2]]

/-- C4: an input detector containing an amplifier named neither "A"
nor "B" makes the run fail with the unexpected-amplifier condition
naming the offending amplifier; the error carries no detector, so the
exposure's original detector reference is never replaced. -/
theorem C4_unexpected_amplifier_aborts (safe sat : ℚ) (pixels : List ℚ)
    (meta : Metadata) (ccd : List Amp) (n : String)
    (hsat : estimateSaturation safe pixels meta = Except.ok sat)
    (hga : (meta "GAINA").isSome = true)
    (hrna : (meta "RDNOISEA").isSome = true)
    (hgb : (meta "GAINB").isSome = true)
    (hrnb : (meta "RDNOISEB").isSome = true)
    (hrd : (meta "RDNOISE").isSome = true)
    (hbad : firstNonAB ccd = some n) :
    run safe none pixels meta ccd =
      Except.error (IsrError.unexpectedAmplifier n) := by
  show (match estimateSaturation safe pixels meta with
    | Except.error e => Except.error e
    | Except.ok saturate => repairAmps meta saturate ccd) = _
  rw [hsat]
  exact repairAmps_firstNonAB_error hga hrna hgb hrnb hrd ccd n hbad

/-- Witness for C4: a detector with amplifiers "A" and "C" aborts with
the unexpected-amplifier condition naming "C". -/
theorem C4_unexpected_amplifier_aborts_witness :
    run (19/20) none [100]
        (fun k => if k = "SATURATE" then some 20000
          else if k = "GAINA" then some 1
          else if k = "RDNOISEA" then some 2
          else if k = "GAINB" then some 3
          else if k = "RDNOISEB" then some 4
          else if k = "RDNOISE" then some 5 else none)
        [{ name := "A", saturation := 0, gain := 0, readNoise := 0, extra := 0 },
         { name := "C", saturation := 0, gain := 0, readNoise := 0, extra := 0 }] =
      Except.error (IsrError.unexpectedAmplifier "C") :=
  C4_unexpected_amplifier_aborts (19/20) 20000 [100]
    (fun k => if k = "SATURATE" then some 20000
      else if k = "GAINA" then some 1
      else if k = "RDNOISEA" then some 2
      else if k = "GAINB" then some 3
      else if k = "RDNOISEB" then some 4
      else if k = "RDNOISE" then some 5 else none)
    [{ name := "A", saturation := 0, gain := 0, readNoise := 0, extra := 0 },
     { name := "C", saturation := 0, gain := 0, readNoise := 0, extra := 0 }]
    "C" rfl rfl rfl rfl rfl rfl rfl

/-- C6: a successful run pairs the input and output detectors
amplifier by amplifier, in order (so the counts agree), changing
nothing but saturation, gain and read noise. -/
theorem C6_structure_preserved (safe : ℚ) (pixels : List ℚ)
    (meta : Metadata) (ccd out : List Amp)
    (hrun : run safe none pixels meta ccd = Except.ok out) :
    List.Forall₂ (fun a b => a.name = b.name ∧ a.extra = b.extra) ccd out := by
  unfold run at hrun
  cases hs : estimateSaturation safe pixels meta with
  | error e => rw [hs] at hrun; cases hrun
  | ok sat => rw [hs] at hrun; exact repairAmps_forall₂ ccd out hrun

/-- Witness for C6 on a two-amplifier detector (with the "B" read
noise taking the corrupted-value fallback path). -/
theorem C6_structure_preserved_witness :
    List.Forall₂ (fun (a b : Amp) => a.name = b.name ∧ a.extra = b.extra)
      [{ name := "A", saturation := 0, gain := 0, readNoise := 0, extra := 11 },
       { name := "B", saturation := 0, gain := 0, readNoise := 0, extra := 12 }]
      [{ name := "A", saturation := 16000, gain := 2, readNoise := 4, extra := 11 },
       { name := "B", saturation := 16000, gain := 3, readNoise := 5, extra := 12 }] :=
  C6_structure_preserved (19/20) [100]
    (fun k => if k = "SATURATE" then some 16000
      else if k = "GAINA" then some 2
      else if k = "RDNOISEA" then some 4
      else if k = "GAINB" then some 3
      else if k = "RDNOISEB" then some 65535
      else if k = "RDNOISE" then some 5 else none)
    [{ name := "A", saturation := 0, gain := 0, readNoise := 0, extra := 11 },
     { name := "B", saturation := 0, gain := 0, readNoise := 0, extra := 12 }]
    [{ name := "A", saturation := 16000, gain := 2, readNoise := 4, extra := 11 },
     { name := "B", saturation := 16000, gain := 3, readNoise := 5, extra := 12 }]
    rfl

/-- C8: the repair is deterministic and idempotent: two detectors
agreeing on names and untouched fields repair to the same records
under the same metadata and saturation, and the output is a fixed
point of the repair. -/
theorem C8_repair_deterministic_idempotent (meta : Metadata) (sat : ℚ)
    (ccd₁ ccd₂ out : List Amp)
    (hkeys : ccd₁.map calibKey = ccd₂.map calibKey)
    (hout : repairAmps meta sat ccd₁ = Except.ok out) :
    repairAmps meta sat ccd₂ = Except.ok out ∧
    repairAmps meta sat out = Except.ok out := by
  constructor
  · rw [← repairAmps_congr meta sat ccd₁ ccd₂ hkeys]
    exact hout
  · rw [repairAmps_congr meta sat out ccd₁
      (repairAmps_ok_calibKey ccd₁ out hout)]
    exact hout

/-- Witness for C8: two "A" amplifiers with different stale
calibration scalars yield the same repaired record, which is itself a
fixed point. -/
theorem C8_repair_deterministic_idempotent_witness :
    repairAmps
        (fun k => if k = "GAINA" then some 2
          else if k = "RDNOISEA" then some 4
          else if k = "RDNOISE" then some 5 else none)
        16000
        [{ name := "A", saturation := 9, gain := 8, readNoise := 7, extra := 11 }] =
      Except.ok
        [{ name := "A", saturation := 16000, gain := 2, readNoise := 4, extra := 11 }] ∧
    repairAmps
        (fun k => if k = "GAINA" then some 2
          else if k = "RDNOISEA" then some 4
          else if k = "RDNOISE" then some 5 else none)
        16000
        [{ name := "A", saturation := 16000, gain := 2, readNoise := 4, extra := 11 }] =
      Except.ok
        [{ name := "A", saturation := 16000, gain := 2, readNoise := 4, extra := 11 }] :=
  C8_repair_deterministic_idempotent
    (fun k => if k = "GAINA" then some 2
      else if k = "RDNOISEA" then some 4
      else if k = "RDNOISE" then some 5 else none)
    16000
    [{ name := "A", saturation := 1, gain := 2, readNoise := 3, extra := 11 }]
    [{ name := "A", saturation := 9, gain := 8, readNoise := 7, extra := 11 }]
    [{ name := "A", saturation := 16000, gain := 2, readNoise := 4, extra := 11 }]
    rfl rfl

/-- When the saturation estimate succeeds, the run is the repair loop
at that estimate. -/
theorem run_none_estimate_ok {safe v : ℚ} {pixels : List ℚ}
    {meta : Metadata} (ccd : List Amp)
    (h : estimateSaturation safe pixels meta = Except.ok v) :
    run safe none pixels meta ccd = repairAmps meta v ccd := by
  unfold run
  rw [h]

/-- The pixel 60000 lands in bin 0 of the histogram over
`[60000, 70001]`. -/
theorem binIndex_pair_low : binIndex 60000 70001 60000 = 0 := by
  unfold binIndex
  rw [if_neg (by norm_num),
    show ⌊100 * ((60000 : ℚ) - 60000) / (70001 - 60000)⌋ = 0 by norm_num]
  rfl

/-- The pixel 70000 lands in bin 99 of the histogram over
`[60000, 70001]`. -/
theorem binIndex_pair_high : binIndex 60000 70001 70000 = 99 := by
  unfold binIndex
  rw [if_neg (by norm_num),
    show ⌊100 * ((70000 : ℚ) - 60000) / (70001 - 60000)⌋ = 99 by
      rw [Int.floor_eq_iff]
      norm_num]
  rfl

/-- Bin counts for the two-pixel image `[60000, 70000]`. -/
theorem binCount_im_pair (j : ℕ) :
    binCount [60000, 70000] j =
      (if 0 = j then 1 else 0) + (if 99 = j then 1 else 0) := by
  have hm : maxPixel [60000, 70000] = 70000 := rfl
  unfold binCount
  rw [hm, show (70000 : ℚ) + 1 = 70001 by norm_num]
  rw [List.countP_cons, List.countP_cons, List.countP_nil]
  unfold inBin
  rw [binIndex_pair_low, binIndex_pair_high,
    decide_eq_true (show (60000 : ℚ) ≤ 60000 by norm_num),
    decide_eq_true (show (60000 : ℚ) ≤ 70001 by norm_num),
    decide_eq_true (show (60000 : ℚ) ≤ 70000 by norm_num),
    decide_eq_true (show (70000 : ℚ) ≤ 70001 by norm_num)]
  by_cases h0 : 0 = j
  · subst h0
    simp
  · by_cases h99 : 99 = j
    · subst h99
      simp
    · simp [h0, h99, Ne.symm h0, Ne.symm h99]

/-- The lower edge 60000 is the peak edge of the two-pixel image
`[60000, 70000]` (bins 0 and 99 tie with one pixel each, and the tie
resolves to the first maximal bin). -/
theorem isPeakEdge_im_pair : IsPeakEdge [60000, 70000] 60000 := by
  refine ⟨⟨0, by norm_num⟩, ?_, ?_, ?_⟩
  · rw [show maxPixel [60000, 70000] = 70000 from rfl]
    unfold binEdge
    norm_num
  · intro j
    rw [binCount_im_pair, binCount_im_pair]
    simp only [Fin.val_mk]
    split_ifs <;> omega
  · intro j hj
    simp only [Fin.val_mk] at hj
    exact absurd hj (Nat.not_lt_zero _)

/-- C10: the configuration value `safe` is never validated: for every
rational value of `safe`, including non-positive ones, the histogram
branch applies it as-is with no configuration error, and a concrete
run with `safe = -1` succeeds end-to-end, writing the negative
saturation -60000 into every amplifier record. -/
theorem C10_safe_not_validated :
    (∀ (safe : ℚ) (pixels : List ℚ) (meta : Metadata),
      60000 < maxPixel pixels →
        estimateSaturation safe pixels meta =
          Except.ok ((pyInt (safe * peakBinLowerEdge pixels) : ℤ) : ℚ)) ∧
    run (-1) none [60000, 70000]
        (fun k => if k = "SATURATE" then some 20000
          else if k = "GAINA" then some 2
          else if k = "RDNOISEA" then some 3
          else if k = "GAINB" then some 4
          else if k = "RDNOISEB" then some 65535
          else if k = "RDNOISE" then some 6 else none)
        [{ name := "A", saturation := 0, gain := 0, readNoise := 0, extra := 0 },
         { name := "B", saturation := 0, gain := 0, readNoise := 0, extra := 0 }] =
      Except.ok
        [{ name := "A", saturation := -60000, gain := 2, readNoise := 3, extra := 0 },
         { name := "B", saturation := -60000, gain := 4, readNoise := 6, extra := 0 }] ∧
    (-60000 : ℚ) < 0 := by
  refine ⟨?_, ?_, by norm_num⟩
  · intro safe pixels meta hmax
    unfold estimateSaturation
    rw [if_pos hmax]
  · have hpeak : peakBinLowerEdge [60000, 70000] = 60000 :=
      (isPeakEdge_eq isPeakEdge_im_pair).symm
    have hmax : (60000 : ℚ) < maxPixel [60000, 70000] := by
      rw [show maxPixel [60000, 70000] = 70000 from rfl]
      norm_num
    have hv : pyInt (-1 * 60000) = -60000 := by
      rw [show (-1 : ℚ) * 60000 = -60000 by norm_num]
      unfold pyInt
      rw [if_neg (by norm_num),
        show (-60000 : ℚ) = ((-60000 : ℤ) : ℚ) by norm_num, Int.ceil_intCast]
    have hest : ∀ meta : Metadata,
        estimateSaturation (-1) [60000, 70000] meta = Except.ok (-60000) := by
      intro meta
      unfold estimateSaturation
      rw [if_pos hmax, hpeak, hv]
      exact congrArg Except.ok (by norm_num)
    rw [run_none_estimate_ok _ (hest _)]
    rfl

end CfhtIsr
